import Mathlib

/-
Verification of the OpenGlück HTTP front door (opengluck/server.py).

The file embeds the request-processing pipeline of server.py in Lean:
the loop guard, the audit logger call, the admin-conditional webhook
dispatch, and the three routes (ping, random, revision).  Collaborator
modules that are not part of the core (opengluck.login, opengluck.redis,
opengluck.http_request_log) are modelled from the spec, as is the JSON
decoding performed by Flask's request.get_json and the Python stdlib
random generator.  Side effects are made explicit as a trace of events.
-/

namespace OpenGluck

/-- Decoded JSON values, the model of what Python's json.loads returns.
Numbers are modelled as rationals, covering JSON integers and decimal
fractions exactly. -/
inductive Json where
  | null
  | bool (b : Bool)
  | num (q : Rat)
  | str (s : String)
  | arr (elems : List Json)
  | obj (fields : List (String × Json))

/-- Skip JSON whitespace, the four characters json.loads ignores. -/
def skipWs : List Char → List Char
  | [] => []
  | c :: rest =>
    if c = ' ' ∨ c = '\t' ∨ c = '\n' ∨ c = '\r' then skipWs rest else c :: rest

/-- Consume an expected literal sequence of characters. -/
def stripChars : List Char → List Char → Option (List Char)
  | [], input => some input
  | _ :: _, [] => none
  | p :: ps, c :: rest => if c = p then stripChars ps rest else none

/-- Accumulate decimal digits into a natural number. -/
def digitsToNat : List Char → Nat → Nat
  | [], acc => acc
  | c :: rest, acc => digitsToNat rest (acc * 10 + (c.toNat - Char.toNat '0'))

/-- Split a leading run of decimal digits from the rest of the input. -/
def takeDigits : List Char → List Char × List Char
  | [] => ([], [])
  | c :: rest =>
    if c.isDigit then
      let r := takeDigits rest
      (c :: r.1, r.2)
    else ([], c :: rest)

/-- Parse an optional fraction part after the integer part of a number. -/
def parseFrac (intPart : Nat) : List Char → Option (Rat × List Char)
  | '.' :: rest =>
    let p := takeDigits rest
    if p.1 = [] then none
    else some ((intPart : Rat) + (digitsToNat p.1 0 : Rat) / ((10 : Rat) ^ p.1.length), p.2)
  | input => some ((intPart : Rat), input)

/-- Parse an optional exponent part of a number. -/
def parseExp (mant : Rat) : List Char → Option (Rat × List Char)
  | [] => some (mant, [])
  | c :: rest =>
    if c = 'e' ∨ c = 'E' then
      let sp : Bool × List Char :=
        match rest with
        | '-' :: r => (true, r)
        | '+' :: r => (false, r)
        | r => (false, r)
      let p := takeDigits sp.2
      if p.1 = [] then none
      else
        let e := digitsToNat p.1 0
        some (if sp.1 then mant / (10 : Rat) ^ e else mant * (10 : Rat) ^ e, p.2)
    else some (mant, c :: rest)

/-- Parse the fraction and exponent tail of a number and apply the sign. -/
def parseNumberTail (neg : Bool) (intPart : Nat) (input : List Char) :
    Option (Rat × List Char) := do
  let (m, rest) ← parseFrac intPart input
  let (v, rest2) ← parseExp m rest
  some (if neg then -v else v, rest2)

/-- Parse a JSON number: optional minus, strict integer part (no leading
zeros), optional fraction and exponent. -/
def parseNumber (input : List Char) : Option (Rat × List Char) :=
  let sp : Bool × List Char :=
    match input with
    | '-' :: rest => (true, rest)
    | rest => (false, rest)
  match sp.2 with
  | [] => none
  | c :: rest =>
    if c = '0' then parseNumberTail sp.1 0 rest
    else if c.isDigit then
      let p := takeDigits rest
      parseNumberTail sp.1 (digitsToNat (c :: p.1) 0) p.2
    else none

/-- Value of a hexadecimal digit. -/
def hexVal (c : Char) : Option Nat :=
  if c.isDigit then some (c.toNat - Char.toNat '0')
  else if 'a' ≤ c ∧ c ≤ 'f' then some (c.toNat - Char.toNat 'a' + 10)
  else if 'A' ≤ c ∧ c ≤ 'F' then some (c.toNat - Char.toNat 'A' + 10)
  else none

/-- Parse the characters of a JSON string after the opening quote, up to
and including the closing quote; handles the JSON escape sequences and
rejects raw control characters, like json.loads in strict mode. -/
def parseStringChars : List Char → Option (List Char × List Char)
  | [] => none
  | '"' :: rest => some ([], rest)
  | '\\' :: '"' :: rest => (parseStringChars rest).map (fun p => ('"' :: p.1, p.2))
  | '\\' :: '\\' :: rest => (parseStringChars rest).map (fun p => ('\\' :: p.1, p.2))
  | '\\' :: '/' :: rest => (parseStringChars rest).map (fun p => ('/' :: p.1, p.2))
  | '\\' :: 'b' :: rest => (parseStringChars rest).map (fun p => (Char.ofNat 8 :: p.1, p.2))
  | '\\' :: 'f' :: rest => (parseStringChars rest).map (fun p => (Char.ofNat 12 :: p.1, p.2))
  | '\\' :: 'n' :: rest => (parseStringChars rest).map (fun p => ('\n' :: p.1, p.2))
  | '\\' :: 'r' :: rest => (parseStringChars rest).map (fun p => ('\r' :: p.1, p.2))
  | '\\' :: 't' :: rest => (parseStringChars rest).map (fun p => ('\t' :: p.1, p.2))
  | '\\' :: 'u' :: h1 :: h2 :: h3 :: h4 :: rest =>
    match hexVal h1, hexVal h2, hexVal h3, hexVal h4 with
    | some a, some b, some c, some d =>
      (parseStringChars rest).map
        (fun p => (Char.ofNat (((a * 16 + b) * 16 + c) * 16 + d) :: p.1, p.2))
    | _, _, _, _ => none
  | '\\' :: _ => none
  | c :: rest =>
    if c.toNat < 32 then none
    else (parseStringChars rest).map (fun p => (c :: p.1, p.2))

mutual

/-- Parse one JSON value; fuel bounds the recursion depth. -/
def parseValue : Nat → List Char → Option (Json × List Char)
  | 0, _ => none
  | Nat.succ fuel, input =>
    match skipWs input with
    | [] => none
    | 'n' :: rest => (stripChars ['u', 'l', 'l'] rest).map (fun r => (Json.null, r))
    | 't' :: rest => (stripChars ['r', 'u', 'e'] rest).map (fun r => (Json.bool true, r))
    | 'f' :: rest => (stripChars ['a', 'l', 's', 'e'] rest).map (fun r => (Json.bool false, r))
    | '"' :: rest => (parseStringChars rest).map (fun p => (Json.str (String.mk p.1), p.2))
    | '[' :: rest =>
      match skipWs rest with
      | ']' :: r2 => some (Json.arr [], r2)
      | r2 => (parseArrayItems fuel r2).map (fun p => (Json.arr p.1, p.2))
    | '{' :: rest =>
      match skipWs rest with
      | '}' :: r2 => some (Json.obj [], r2)
      | r2 => (parseObjItems fuel r2).map (fun p => (Json.obj p.1, p.2))
    | other => (parseNumber other).map (fun p => (Json.num p.1, p.2))

/-- Parse the comma-separated items of a non-empty JSON array, up to and
including the closing bracket. -/
def parseArrayItems : Nat → List Char → Option (List Json × List Char)
  | 0, _ => none
  | Nat.succ fuel, input => do
    let (v, rest) ← parseValue fuel input
    match skipWs rest with
    | ',' :: r2 => do
      let (vs, r3) ← parseArrayItems fuel r2
      some (v :: vs, r3)
    | ']' :: r2 => some ([v], r2)
    | _ => none

/-- Parse the comma-separated members of a non-empty JSON object, up to
and including the closing brace. -/
def parseObjItems : Nat → List Char → Option (List (String × Json) × List Char)
  | 0, _ => none
  | Nat.succ fuel, input =>
    match skipWs input with
    | '"' :: rest => do
      let (key, r2) ← parseStringChars rest
      match skipWs r2 with
      | ':' :: r3 => do
        let (v, r4) ← parseValue fuel r3
        match skipWs r4 with
        | ',' :: r5 => do
          let (fs, r6) ← parseObjItems fuel r5
          some ((String.mk key, v) :: fs, r6)
        | '}' :: r5 => some ([(String.mk key, v)], r5)
        | _ => none
      | _ => none
    | _ => none

end

/-- Parse a complete JSON document, the model of json.loads: the whole
input must be consumed, up to trailing whitespace. -/
def parseJson (s : String) : Option Json :=
  match parseValue (s.length + 1) s.toList with
  | some (j, rest) => if skipWs rest = [] then some j else none
  | none => none

/-- An inbound HTTP request as the pipeline sees it: method, path,
headers (ordered, possibly repeated keys), cookies, the raw body text,
and the remote address when the transport provides one. -/
structure HttpRequest where
  method : String
  path : String
  headers : List (String × String)
  cookies : List (String × String)
  rawBody : String
  remote_addr : Option String

/-- Lowercase an ASCII letter, the case folding applied to header names. -/
def lowerChar (c : Char) : Char :=
  if 'A' ≤ c ∧ c ≤ 'Z' then Char.ofNat (c.toNat + 32) else c

/-- Lowercase a header name for case-insensitive comparison. -/
def lowerStr (s : String) : String :=
  String.mk (s.toList.map lowerChar)

/-- Case-insensitive header membership, the semantics of
`key in request.headers` on a werkzeug header map. -/
def headerContains (hs : List (String × String)) (key : String) : Bool :=
  hs.any (fun kv => lowerStr kv.1 = lowerStr key)

/-- Case-insensitive header lookup returning the first matching value,
the semantics of `request.headers[key]`. -/
def headerGet (hs : List (String × String)) (key : String) : Option String :=
  (hs.find? (fun kv => lowerStr kv.1 = lowerStr key)).map (fun kv => kv.2)

/-- Key used for flask_limiter: the Authorization header value when that
header is present, else the remote address, with Python falsiness mapping
an absent or empty remote address to the string "no-ip". -/
def _get_flask_limiter_key (req : HttpRequest) : String :=
  match headerGet req.headers "Authorization" with
  | some v => v
  | none =>
    match req.remote_addr with
    | some addr => if addr = "" then "no-ip" else addr
    | none => "no-ip"

/-- Check if the current request is an app request. -/
def is_app_request (req : HttpRequest) : Bool :=
  req.path.startsWith "/opengluck"

/-- The body captured for the request payload: the decoded JSON value
when the body parses, else the raw text, else nothing (Python None). -/
inductive BodyData where
  | jsonVal (j : Json)
  | rawText (s : String)
  | noBody

/-- Body extraction of _process_request: try request.get_json, on failure
fall back to the decoded raw body, and store None when that is empty. -/
def decodeBody (raw : String) : BodyData :=
  match parseJson raw with
  | some j => BodyData.jsonVal j
  | none => if raw.length = 0 then BodyData.noBody else BodyData.rawText raw

/-- The payload assembled by _process_request from the current request. -/
structure Payload where
  method : String
  path : String
  headers : List (String × String)
  cookies : List (String × String)
  data : BodyData

/-- The payload dictionary built in _process_request. -/
def mkPayload (req : HttpRequest) : Payload where
  method := req.method
  path := req.path
  headers := req.headers
  cookies := req.cookies
  data := decodeBody req.rawBody

/-- Observable side effects of one pipeline run, in order of occurrence. -/
inductive Effect where
  | logRequestCall
  | auditWrite
  | storeErrorLogged
  | adminCheck (res : Bool)
  | webhookCall (ev : String) (payload : Payload)
  | viewCall (path : String)

/-- Whether an effect is the invocation of log_request_to_redis. -/
def isLogCall : Effect → Bool
  | Effect.logRequestCall => true
  | _ => false

/-- Whether an effect is an invocation of call_webhooks. -/
def isWebhook : Effect → Bool
  | Effect.webhookCall _ _ => true
  | _ => false

/-- Whether an effect is the execution of a route handler. -/
def isView : Effect → Bool
  | Effect.viewCall _ => true
  | _ => false

/-- Contents of the shared store relevant to the routes. -/
structure Store where
  revision : Int
  revision_changed_at : Int

/-- Per-request environment: the external collaborators' answers.  The
store is none when unreachable; the Boolean fields are the Authentication
Oracle's answers for this request; rngState is the stdlib random
generator state. -/
structure Env where
  store : Option Store
  logged_in : Bool
  logged_in_as_admin : Bool
  accessor_ok : Bool
  rngState : Nat

/-- Body of an HTTP response. -/
inductive RespBody where
  | empty
  | text (s : String)
  | jsonBody (j : Json)

/-- An HTTP response: status code and body. -/
structure Response where
  status : Nat
  body : RespBody

/-- Modelled from the spec: opengluck.login's assert helpers
(assert_current_request_logged_in, assert_get_current_request_redis_client,
module not under src/) fail with an authentication error when the
Authentication Oracle rejects the request; modelled as a 401 response. -/
def authFailureResponse : Response where
  status := 401
  body := RespBody.empty

/-- Modelled from the spec: opengluck.redis's get_revision and
get_revision_changed_at (module not under src/) return the accessor's
error unchanged when the store is unreachable; an uncaught store error
surfaces to the client as a server error response, not a silent default. -/
def storeErrorResponse : Response where
  status := 500
  body := RespBody.empty

/-- Modelled from the spec: opengluck.http_request_log.log_request_to_redis
(module not under src/) appends one audit record to the shared store and,
when the store is unreachable, logs a local error and returns without
raising: a logging failure must never fail the HTTP request. -/
def log_request_to_redis (store : Option Store) : List Effect :=
  Effect.logRequestCall ::
    (match store with
     | some _ => [Effect.auditWrite]
     | none => [Effect.storeErrorLogged])

/-- The pipeline stage run for every non-guarded request: call the audit
logger, build the payload from the request, query the Authentication
Oracle, and call the webhooks only for an admin request. -/
def _process_request (env : Env) (req : HttpRequest) : List Effect :=
  log_request_to_redis env.store ++
    (Effect.adminCheck env.logged_in_as_admin ::
      (if env.logged_in_as_admin then
        [Effect.webhookCall "app_request" (mkPayload req)]
       else []))

/-- The loop guard: a request carrying the x-opengluck-login header (any
value, key matched case-insensitively) is answered 423 at once. -/
def _prevent_recursive_calls (req : HttpRequest) : Option Response :=
  if headerContains req.headers "x-opengluck-login" then
    some { status := 423, body := RespBody.empty }
  else none

/-- Modelled from the spec: Python's random.random returns a value in the
interval from zero inclusive to one exclusive, determined by the current
generator state; modelled as a 53-bit rational. -/
def random_random (state : Nat) : Rat :=
  ((state % 2 ^ 53 : Nat) : Rat) / ((2 ^ 53 : Nat) : Rat)

/-- Modelled from the spec: advancing the stdlib generator state after one
sample; each request's sample is drawn from a fresh state. -/
def stepRng (state : Nat) : Nat :=
  (state * 6364136223846793005 + 1442695040888963407) % 2 ^ 64

/-- The ping route: asserts the request is logged in, then returns pong. -/
def _ping (env : Env) : Response :=
  if env.logged_in then { status := 200, body := RespBody.text "pong" }
  else authFailureResponse

/-- The random route: returns a JSON object with one key "random" holding
a fresh sample of random.random. -/
def _random (env : Env) : Response where
  status := 200
  body := RespBody.jsonBody (Json.obj [("random", Json.num (random_random env.rngState))])

/-- The revision route: obtains the request's store accessor (failing
with an authentication error when the Oracle rejects), reads the revision
and its change timestamp fresh from the store, and returns both. -/
def _get_revision_info (env : Env) : Response :=
  if env.accessor_ok then
    match env.store with
    | none => storeErrorResponse
    | some st =>
      { status := 200,
        body := RespBody.jsonBody (Json.obj
          [("revision", Json.num (st.revision : Rat)),
           ("revision_changed_at", Json.num (st.revision_changed_at : Rat))]) }
  else authFailureResponse

/-- Route dispatch: run the handler registered for the path, record its
execution, and advance the generator state when random.random was
sampled; unknown paths get a 404 and no handler runs. -/
def dispatchRoute (env : Env) (req : HttpRequest) : Response × List Effect × Nat :=
  if req.path = "/opengluck/ping" then (_ping env, [Effect.viewCall req.path], env.rngState)
  else if req.path = "/opengluck/random" then
    (_random env, [Effect.viewCall req.path], stepRng env.rngState)
  else if req.path = "/opengluck/revision" then
    (_get_revision_info env, [Effect.viewCall req.path], env.rngState)
  else ({ status := 404, body := RespBody.empty }, [], env.rngState)

/-- One full request: Flask runs the before_request functions in
registration order; _prevent_recursive_calls may answer 423 and stop all
further processing, otherwise _log_request runs _process_request and the
route is dispatched.  Returns the response, the effect trace, and the
environment for the next request (only the generator state changes). -/
def handleRequest (env : Env) (req : HttpRequest) : Response × List Effect × Env :=
  match _prevent_recursive_calls req with
  | some resp => (resp, [], env)
  | none =>
    let effs := _process_request env req
    let out := dispatchRoute env req
    (out.1, effs ++ out.2.1, { env with rngState := out.2.2 })

end OpenGluck

namespace OpenGluck

lemma dispatchRoute_effects (env : Env) (req : HttpRequest) :
    (dispatchRoute env req).2.1 = [] ∨ (dispatchRoute env req).2.1 = [Effect.viewCall req.path] := by
  unfold dispatchRoute
  split
  · right; rfl
  · split
    · right; rfl
    · split
      · right; rfl
      · left; rfl

lemma countP_logCall_handle (env : Env) (req : HttpRequest) :
    ((handleRequest env req).2.1).countP isLogCall =
      if headerContains req.headers "x-opengluck-login" then 0 else 1 := by
  by_cases h : headerContains req.headers "x-opengluck-login"
  · simp [handleRequest, _prevent_recursive_calls, h]
  · rcases dispatchRoute_effects env req with hd | hd <;>
    cases hstore : env.store <;>
    cases hadm : env.logged_in_as_admin <;>
      simp [handleRequest, _prevent_recursive_calls, h, _process_request,
        log_request_to_redis, hd, hstore, hadm, isLogCall,
        List.countP_cons, List.countP_append]

lemma countP_webhook_handle (env : Env) (req : HttpRequest) :
    ((handleRequest env req).2.1).countP isWebhook =
      if headerContains req.headers "x-opengluck-login" then 0
      else if env.logged_in_as_admin then 1 else 0 := by
  by_cases h : headerContains req.headers "x-opengluck-login"
  · simp [handleRequest, _prevent_recursive_calls, h]
  · rcases dispatchRoute_effects env req with hd | hd <;>
    cases hstore : env.store <;>
    cases hadm : env.logged_in_as_admin <;>
      simp [handleRequest, _prevent_recursive_calls, h, _process_request,
        log_request_to_redis, hd, hstore, hadm, isWebhook,
        List.countP_cons, List.countP_append]

/-- C1: a request whose headers contain x-opengluck-login (any value,
matched case-insensitively) is answered 423 at once, with an empty effect
trace: no audit-logger call, no webhook call, no route handler. -/
theorem guard_locks_and_skips_pipeline (env : Env) (req : HttpRequest)
    (h : headerContains req.headers "x-opengluck-login" = true) :
    (handleRequest env req).1 = { status := 423, body := RespBody.empty } ∧
    (handleRequest env req).2.1 = [] ∧
    ((handleRequest env req).2.1).countP isLogCall = 0 ∧
    ((handleRequest env req).2.1).countP isWebhook = 0 ∧
    ((handleRequest env req).2.1).countP isView = 0 := by
  simp [handleRequest, _prevent_recursive_calls, h]

/-- C2: a request without the sentinel header produces exactly one
invocation of log_request_to_redis, and that invocation precedes the
admin-authentication check in the effect trace. -/
theorem audit_logged_once_before_admin_check (env : Env) (req : HttpRequest)
    (h : headerContains req.headers "x-opengluck-login" = false) :
    ((handleRequest env req).2.1).countP isLogCall = 1 ∧
    ∃ i j : Nat, i < j ∧
      ((handleRequest env req).2.1)[i]? = some Effect.logRequestCall ∧
      ((handleRequest env req).2.1)[j]? = some (Effect.adminCheck env.logged_in_as_admin) := by
  constructor
  · simp [countP_logCall_handle, h]
  · refine ⟨0, 2, by norm_num, ?_, ?_⟩ <;>
    cases hstore : env.store <;>
      simp [handleRequest, _prevent_recursive_calls, h, _process_request,
        log_request_to_redis, hstore, List.cons_append]

end OpenGluck
namespace OpenGluck

/-- C3: for a non-guarded request, call_webhooks is invoked if and only
if the Authentication Oracle reports an authenticated admin request, and
then exactly once, with event name "app_request" and a payload holding
the request's method, path, headers, cookies, and decoded body. -/
theorem webhook_iff_admin (env : Env) (req : HttpRequest)
    (h : headerContains req.headers "x-opengluck-login" = false) :
    (env.logged_in_as_admin = true ↔
      Effect.webhookCall "app_request"
        { method := req.method, path := req.path, headers := req.headers,
          cookies := req.cookies, data := decodeBody req.rawBody } ∈ (handleRequest env req).2.1) ∧
    ((handleRequest env req).2.1).countP isWebhook =
      (if env.logged_in_as_admin = true then 1 else 0) := by
  constructor
  · rcases dispatchRoute_effects env req with hd | hd <;>
    cases hstore : env.store <;>
    cases hadm : env.logged_in_as_admin <;>
      simp [handleRequest, _prevent_recursive_calls, h, _process_request,
        log_request_to_redis, mkPayload, hd, hstore, hadm]
  · simp [countP_webhook_handle, h]

/-- C4: when the store is unreachable for a non-guarded request, the
audit failure is logged locally and swallowed: no record is written, the
route handler still runs exactly as dispatched, and the response is the
route's own response, not an error caused by the logging failure. -/
theorem log_failure_swallowed (env : Env) (req : HttpRequest)
    (hg : headerContains req.headers "x-opengluck-login" = false)
    (hs : env.store = none) :
    Effect.storeErrorLogged ∈ (handleRequest env req).2.1 ∧
    Effect.auditWrite ∉ (handleRequest env req).2.1 ∧
    (handleRequest env req).1 = (dispatchRoute env req).1 ∧
    (∀ p, Effect.viewCall p ∈ (handleRequest env req).2.1 ↔
      Effect.viewCall p ∈ (dispatchRoute env req).2.1) := by
  rcases dispatchRoute_effects env req with hd | hd <;>
  cases hadm : env.logged_in_as_admin <;>
    simp [handleRequest, _prevent_recursive_calls, hg, _process_request,
      log_request_to_redis, hs, hd, hadm]

end OpenGluck
namespace OpenGluck

def reqWithBody (b : String) : HttpRequest where
  method := "POST"
  path := "/external/echo"
  headers := [("Content-Type", "application/json")]
  cookies := []
  rawBody := b
  remote_addr := some "10.0.0.1"

/-- C5: the captured body is a three-way tagged result: the decoded JSON
value when the raw body parses, the raw string when decoding fails on a
non-empty body, and nothing when decoding fails on an empty body; in
particular a JSON object body decodes, "not json" stays raw text, and an
empty body is captured as None. -/
theorem body_decode_three_way :
    (∀ raw j, parseJson raw = some j → decodeBody raw = BodyData.jsonVal j) ∧
    (∀ raw, parseJson raw = none → raw ≠ "" → decodeBody raw = BodyData.rawText raw) ∧
    (∀ raw, parseJson raw = none → raw = "" → decodeBody raw = BodyData.noBody) ∧
    (mkPayload (reqWithBody "\x7b\"a\":1\x7d")).data =
      BodyData.jsonVal (Json.obj [("a", Json.num 1)]) ∧
    (mkPayload (reqWithBody "not json")).data = BodyData.rawText "not json" ∧
    (mkPayload (reqWithBody "")).data = BodyData.noBody := by
  refine ⟨?_, ?_, ?_, rfl, rfl, rfl⟩
  · intro raw j hp
    simp [decodeBody, hp]
  · intro raw hp hne
    have hlen : raw.length ≠ 0 := by
      cases raw with
      | mk l =>
        cases l with
        | nil => exact absurd rfl hne
        | cons c cs => simp [String.length]
    simp [decodeBody, hp, hlen]
  · intro raw hp he
    subst he
    simp [decodeBody, hp]

/-- C5 witness: the non-empty non-JSON branch applied at the concrete
body "not json". -/
theorem body_decode_three_way_witness :
    decodeBody "not json" = BodyData.rawText "not json" :=
  body_decode_three_way.2.1 "not json" rfl (by decide)

/-- C6: the revision route, for an authenticated accessor and a reachable
store, answers 200 with exactly the revision and its change timestamp as
currently stored; an unauthenticated accessor gets an authentication
error and an unreachable store a server error, never a silent default. -/
theorem revision_route_reads_store (env : Env) (st : Store) (req : HttpRequest)
    (hpath : req.path = "/opengluck/revision")
    (hg : headerContains req.headers "x-opengluck-login" = false) :
    (env.accessor_ok = true → env.store = some st →
      (handleRequest env req).1 =
        { status := 200,
          body := RespBody.jsonBody (Json.obj
            [("revision", Json.num (st.revision : Rat)),
             ("revision_changed_at", Json.num (st.revision_changed_at : Rat))]) }) ∧
    (env.accessor_ok = false → (handleRequest env req).1 = authFailureResponse) ∧
    (env.accessor_ok = true → env.store = none →
      (handleRequest env req).1 = storeErrorResponse) := by
  have hd : dispatchRoute env req = (_get_revision_info env, [Effect.viewCall req.path], env.rngState) := by
    simp [dispatchRoute, hpath]
  refine ⟨?_, ?_, ?_⟩
  · intro ha hs
    simp [handleRequest, _prevent_recursive_calls, hg, hd, _get_revision_info, ha, hs]
  · intro ha
    simp [handleRequest, _prevent_recursive_calls, hg, hd, _get_revision_info, ha]
  · intro ha hs
    simp [handleRequest, _prevent_recursive_calls, hg, hd, _get_revision_info, ha, hs]

/-- C7: the ping route fails with an authentication error exactly when
the Authentication Oracle reports the request is not logged in, and
otherwise returns the fixed string pong. -/
theorem ping_auth_iff_logged_in (env : Env) (req : HttpRequest)
    (hpath : req.path = "/opengluck/ping")
    (hg : headerContains req.headers "x-opengluck-login" = false) :
    ((handleRequest env req).1 = authFailureResponse ↔ env.logged_in = false) ∧
    (env.logged_in = true →
      (handleRequest env req).1 = { status := 200, body := RespBody.text "pong" }) := by
  have hd : dispatchRoute env req = (_ping env, [Effect.viewCall req.path], env.rngState) := by
    simp [dispatchRoute, hpath]
  cases hl : env.logged_in <;>
    simp [handleRequest, _prevent_recursive_calls, hg, hd, _ping, hl, authFailureResponse]

end OpenGluck

namespace OpenGluck

lemma random_random_bounds (s : Nat) : 0 ≤ random_random s ∧ random_random s < 1 := by
  constructor
  · exact div_nonneg (Nat.cast_nonneg _) (Nat.cast_nonneg _)
  · rw [random_random, div_lt_one]
    · exact_mod_cast Nat.mod_lt s (by norm_num)
    · have h : (0 : Nat) < 2 ^ 53 := by norm_num
      exact_mod_cast h

/-- C8: the random route answers 200 with a JSON object holding one key
"random" whose value is the generator's current sample, a value at least
zero and below one; a second request draws from the advanced generator
state, so each request gets a fresh, independently drawn sample. -/
theorem random_route_fresh_sample (env : Env) (req1 req2 : HttpRequest)
    (h1 : req1.path = "/opengluck/random") (h2 : req2.path = "/opengluck/random")
    (hg1 : headerContains req1.headers "x-opengluck-login" = false)
    (hg2 : headerContains req2.headers "x-opengluck-login" = false) :
    (handleRequest env req1).1 =
      { status := 200,
        body := RespBody.jsonBody (Json.obj
          [("random", Json.num (random_random env.rngState))]) } ∧
    (handleRequest ((handleRequest env req1).2.2) req2).1 =
      { status := 200,
        body := RespBody.jsonBody (Json.obj
          [("random", Json.num (random_random (stepRng env.rngState)))]) } ∧
    (0 ≤ random_random env.rngState ∧ random_random env.rngState < 1) ∧
    (0 ≤ random_random (stepRng env.rngState) ∧
      random_random (stepRng env.rngState) < 1) := by
  have hd1 : dispatchRoute env req1 =
      (_random env, [Effect.viewCall req1.path], stepRng env.rngState) := by
    simp [dispatchRoute, h1]
  have henv : (handleRequest env req1).2.2 = { env with rngState := stepRng env.rngState } := by
    simp [handleRequest, _prevent_recursive_calls, hg1, hd1]
  refine ⟨?_, ?_, random_random_bounds _, random_random_bounds _⟩
  · simp [handleRequest, _prevent_recursive_calls, hg1, hd1, _random]
  · have hd2 : dispatchRoute { env with rngState := stepRng env.rngState } req2 =
        (_random { env with rngState := stepRng env.rngState },
          [Effect.viewCall req2.path], stepRng (stepRng env.rngState)) := by
      simp [dispatchRoute, h2]
    rw [henv]
    simp [handleRequest, _prevent_recursive_calls, hg2, hd2, _random]

def authEmptyReq : HttpRequest where
  method := "GET"
  path := "/external/echo"
  headers := [("Authorization", "")]
  cookies := []
  rawBody := ""
  remote_addr := some "10.0.0.1"

/-- C9 counterexample: a request carrying an Authorization header whose
value is the empty string has a present Authorization header and a
present remote address, yet the rate-limiter key function returns the
empty string, so the key can be empty, contrary to the claim. -/
theorem limiter_key_empty_counterexample :
    headerContains authEmptyReq.headers "Authorization" = true ∧
    authEmptyReq.remote_addr = some "10.0.0.1" ∧
    _get_flask_limiter_key authEmptyReq = "" :=
  ⟨rfl, rfl, rfl⟩

/-- C9 amended: the key is the Authorization header's value when that
header is present, else the remote address when present and non-empty,
else the constant "no-ip"; the key is never missing, and it is non-empty
whenever the Authorization header is absent, but it equals the empty
string when an Authorization header with empty value is present. -/
theorem limiter_key_selection (req : HttpRequest) :
    (∀ v, headerGet req.headers "Authorization" = some v →
      _get_flask_limiter_key req = v) ∧
    (headerGet req.headers "Authorization" = none →
      ∀ a, req.remote_addr = some a → a ≠ "" → _get_flask_limiter_key req = a) ∧
    (headerGet req.headers "Authorization" = none →
      (req.remote_addr = none ∨ req.remote_addr = some "") →
      _get_flask_limiter_key req = "no-ip") ∧
    (headerGet req.headers "Authorization" = none →
      _get_flask_limiter_key req ≠ "") := by
  refine ⟨?_, ?_, ?_, ?_⟩
  · intro v hv
    simp [_get_flask_limiter_key, hv]
  · intro hn a ha hne
    simp [_get_flask_limiter_key, hn, ha, hne]
  · intro hn hcase
    rcases hcase with hr | hr <;> simp [_get_flask_limiter_key, hn, hr]
  · intro hn
    cases hr : req.remote_addr with
    | none => simp [_get_flask_limiter_key, hn, hr]
    | some a =>
      by_cases hae : a = "" <;> simp [_get_flask_limiter_key, hn, hr, hae]

lemma handle_status_eq_423_iff (env : Env) (req : HttpRequest) :
    ((handleRequest env req).1.status = 423) ↔
      headerContains req.headers "x-opengluck-login" = true := by
  by_cases h : headerContains req.headers "x-opengluck-login"
  · simp [handleRequest, _prevent_recursive_calls, h]
  · simp [handleRequest, _prevent_recursive_calls, h]
    unfold dispatchRoute
    split
    · cases hl : env.logged_in <;> simp [_ping, hl, authFailureResponse]
    · split
      · simp [_random]
      · split
        · by_cases ha : env.accessor_ok
          · cases hs : env.store <;>
              simp [_get_revision_info, ha, hs, storeErrorResponse]
          · simp [_get_revision_info, ha, authFailureResponse]
        · simp

/-- C10: the loop guard and the audit/dispatch pipeline treat every path
alike: is_app_request holds exactly for paths starting with /opengluck,
yet replacing a request's path by any other changes neither the guard's
decision, nor the number of audit-logger calls, nor the number of webhook
calls, nor whether the request is answered with the locked status. -/
theorem pipeline_ignores_path (env : Env) (req : HttpRequest) (p : String) :
    is_app_request req = req.path.startsWith "/opengluck" ∧
    _prevent_recursive_calls { req with path := p } = _prevent_recursive_calls req ∧
    ((handleRequest env { req with path := p }).2.1).countP isLogCall =
      ((handleRequest env req).2.1).countP isLogCall ∧
    ((handleRequest env { req with path := p }).2.1).countP isWebhook =
      ((handleRequest env req).2.1).countP isWebhook ∧
    (((handleRequest env { req with path := p }).1.status = 423) ↔
      ((handleRequest env req).1.status = 423)) := by
  refine ⟨rfl, rfl, ?_, ?_, ?_⟩
  · simp [countP_logCall_handle]
  · simp [countP_webhook_handle]
  · simp [handle_status_eq_423_iff]

end OpenGluck

namespace OpenGluck

/-- Concrete store contents used by the witnesses. -/
def demoStore : Store where
  revision := 3
  revision_changed_at := 1700000000

/-- Concrete environment of an authenticated admin request with a
reachable store. -/
def adminEnv : Env where
  store := some demoStore
  logged_in := true
  logged_in_as_admin := true
  accessor_ok := true
  rngState := 42

/-- Concrete environment of an unauthenticated request with the store
unreachable. -/
def downEnv : Env where
  store := none
  logged_in := false
  logged_in_as_admin := false
  accessor_ok := false
  rngState := 7

/-- A request tagged with the sentinel header, in mixed case. -/
def guardedReq : HttpRequest where
  method := "GET"
  path := "/opengluck/ping"
  headers := [("X-OpenGluck-Login", "webhook")]
  cookies := []
  rawBody := ""
  remote_addr := some "10.0.0.1"

/-- An ordinary request to the ping route without the sentinel header. -/
def plainReq : HttpRequest where
  method := "GET"
  path := "/opengluck/ping"
  headers := [("Accept", "text/plain")]
  cookies := []
  rawBody := ""
  remote_addr := some "192.168.1.7"

/-- A request to the revision route without the sentinel header. -/
def revisionReq : HttpRequest where
  method := "GET"
  path := "/opengluck/revision"
  headers := []
  cookies := []
  rawBody := ""
  remote_addr := none

/-- A request to the random route without the sentinel header. -/
def randomReq : HttpRequest where
  method := "GET"
  path := "/opengluck/random"
  headers := []
  cookies := []
  rawBody := ""
  remote_addr := none

/-- Witness for C1: the mixed-case sentinel request is answered 423 with
an empty trace. -/
theorem guard_locks_and_skips_pipeline_witness :
    (handleRequest adminEnv guardedReq).1 = { status := 423, body := RespBody.empty } ∧
    (handleRequest adminEnv guardedReq).2.1 = [] ∧
    ((handleRequest adminEnv guardedReq).2.1).countP isLogCall = 0 ∧
    ((handleRequest adminEnv guardedReq).2.1).countP isWebhook = 0 ∧
    ((handleRequest adminEnv guardedReq).2.1).countP isView = 0 :=
  guard_locks_and_skips_pipeline adminEnv guardedReq (by decide)

/-- Witness for C2: the plain request produces exactly one audit-logger
call. -/
theorem audit_logged_once_witness :
    ((handleRequest adminEnv plainReq).2.1).countP isLogCall = 1 :=
  (audit_logged_once_before_admin_check adminEnv plainReq (by decide)).1

/-- Witness for C3: the admin request produces exactly one webhook call. -/
theorem webhook_iff_admin_witness :
    ((handleRequest adminEnv plainReq).2.1).countP isWebhook =
      (if adminEnv.logged_in_as_admin = true then 1 else 0) :=
  (webhook_iff_admin adminEnv plainReq (by decide)).2

/-- Witness for C4: with the store down, the local error is in the trace. -/
theorem log_failure_swallowed_witness :
    Effect.storeErrorLogged ∈ (handleRequest downEnv plainReq).2.1 :=
  (log_failure_swallowed downEnv plainReq (by decide) rfl).1

/-- Witness for C6: the revision route answers 200 with the stored
revision and timestamp. -/
theorem revision_route_reads_store_witness :
    (handleRequest adminEnv revisionReq).1 =
      { status := 200,
        body := RespBody.jsonBody (Json.obj
          [("revision", Json.num (demoStore.revision : Rat)),
           ("revision_changed_at", Json.num (demoStore.revision_changed_at : Rat))]) } :=
  (revision_route_reads_store adminEnv demoStore revisionReq rfl (by decide)).1 rfl rfl

/-- Witness for C7: the logged-in ping request is answered pong. -/
theorem ping_auth_iff_logged_in_witness :
    (handleRequest adminEnv plainReq).1 = { status := 200, body := RespBody.text "pong" } :=
  (ping_auth_iff_logged_in adminEnv plainReq rfl (by decide)).2 rfl

/-- Witness for C8: the random route answers with the generator's current
sample. -/
theorem random_route_fresh_sample_witness :
    (handleRequest adminEnv randomReq).1 =
      { status := 200,
        body := RespBody.jsonBody (Json.obj
          [("random", Json.num (random_random adminEnv.rngState))]) } :=
  (random_route_fresh_sample adminEnv randomReq randomReq rfl rfl (by decide) (by decide)).1

/-- Witness for C9: with no Authorization header, the key is the remote
address. -/
theorem limiter_key_selection_witness :
    _get_flask_limiter_key plainReq = "192.168.1.7" :=
  (limiter_key_selection plainReq).2.1 rfl "192.168.1.7" rfl (by decide)

end OpenGluck
